import Mathlib

/-!
Verification of the model-lifecycle subsystem of the Pulsed repository:
the feedback ledger (src/utils/db.py), the model-registry abstraction
(src/utils/mlflow_utils.py), promotion and rollback (src/pipelines/promote.py),
the two retraining pipelines (src/pipelines/retrain_classifier.py and
src/pipelines/retrain_summarizer.py), and the drift detector
(src/monitoring/drift.py).

External effects (SQL statements, MLflow client calls, the opaque training
subroutine) are embedded as pure functions over explicit state; calls that can
raise in Python are resolved through oracle fields of an `Env` record, so a
single run of a pipeline is a pure function of its environment.
-/

namespace Pulsed

/-- Registry stage labels, mirroring the MLflow stage strings
"None", "Staging", "Production", "Archived". -/
inductive Stage where
  | nostage
  | staging
  | production
  | archived
deriving DecidableEq, Repr

instance : BEq Stage := ⟨fun a b => decide (a = b)⟩

@[simp]
theorem Stage.beq_def (a b : Stage) : (a == b) = decide (a = b) := rfl

/-- A row of the raw_articles table (the columns the lifecycle subsystem reads). -/
structure Article where
  article_id : String
  title : String
  abstract : Option String
  full_text : Option String
deriving DecidableEq, Repr

/-- A row of the summaries table (the columns the lifecycle subsystem reads). -/
structure SummaryRow where
  article_id : String
  summary_text : String
deriving DecidableEq, Repr

/-- A row of the feedback table from the schema in src/utils/db.py. -/
structure FeedbackEntry where
  feedback_id : Nat
  article_id : String
  predicted_label : Option String
  correct_label : Option String
  classifier_version : Option String
  summary_rating : Option String
  summary_edited_text : Option String
  summary_issues : Option String
  summarizer_version : Option String
  used_for_training : Bool
  used_for_classifier_training : Bool
  used_for_summarizer_training : Bool
deriving DecidableEq, Repr

/-- The relational state the lifecycle subsystem touches. -/
structure Database where
  articles : List Article
  summaries : List SummaryRow
  feedback : List FeedbackEntry
deriving DecidableEq, Repr

/-- Lookup of a raw_articles row by primary key (the INNER JOIN partner of the
feedback queries). -/
def findArticle (db : Database) (aid : String) : Option Article :=
  db.articles.find? (fun a => a.article_id == aid)

/-- Embeds DatabaseManager.get_unused_classification_feedback: feedback rows
joined to raw_articles with a non-null corrected label and
used_for_classifier_training = FALSE. -/
def getUnusedClassificationFeedback (db : Database) : List FeedbackEntry :=
  db.feedback.filter (fun f =>
    f.correct_label.isSome && !f.used_for_classifier_training
      && (findArticle db f.article_id).isSome)

/-- Embeds DatabaseManager.get_unused_summary_feedback: feedback rows joined to
raw_articles with a non-null rating or edited text and
used_for_summarizer_training = FALSE. -/
def getUnusedSummaryFeedback (db : Database) : List FeedbackEntry :=
  db.feedback.filter (fun f =>
    (f.summary_rating.isSome || f.summary_edited_text.isSome)
      && !f.used_for_summarizer_training
      && (findArticle db f.article_id).isSome)

/-- Embeds DatabaseManager.get_summary: the stored summary for an article, if
any. -/
def getSummary (db : Database) (aid : String) : Option SummaryRow :=
  db.summaries.find? (fun s => s.article_id == aid)

/-- The model_type argument of DatabaseManager.mark_feedback_used: the strings
"classifier", "summarizer" and the default "both". -/
inductive MarkType where
  | classifier
  | summarizer
  | both
deriving DecidableEq, Repr

/-- The per-row effect of the UPDATE statement chosen by mark_feedback_used. -/
def markEntry (mt : MarkType) (f : FeedbackEntry) : FeedbackEntry :=
  match mt with
  | MarkType.classifier =>
      { f with used_for_training := true, used_for_classifier_training := true }
  | MarkType.summarizer =>
      { f with used_for_training := true, used_for_summarizer_training := true }
  | MarkType.both =>
      { f with used_for_training := true, used_for_classifier_training := true,
               used_for_summarizer_training := true }

/-- Embeds DatabaseManager.mark_feedback_used: a no-op on an empty id list,
otherwise one UPDATE setting, per model_type, used_for_training together with
the matching per-model flag (or all three for "both") on the listed rows.
In Python the model_type parameter defaults to "both". -/
def markFeedbackUsed (db : Database) (feedback_ids : List Nat) (mt : MarkType) : Database :=
  if feedback_ids.isEmpty then db
  else
    { db with feedback := db.feedback.map (fun f =>
        if feedback_ids.contains f.feedback_id then markEntry mt f else f) }

/-- A model version in the registry: family name, monotonically increasing
version number, stage label and the training-run id that produced it
(src/utils/mlflow_utils.py, get_model_history fields). -/
structure RegEntry where
  name : String
  version : Nat
  stage : Stage
  run_id : String
deriving DecidableEq, Repr

/-- The registry is the collection of all registered versions of all families. -/
abbrev Registry := List RegEntry

/-- Registry name of the classifier family (mlflow_utils.CLASSIFIER_MODEL_NAME). -/
def CLASSIFIER_MODEL_NAME : String := "pulsed-classifier"

/-- Registry name of the summarizer family (mlflow_utils.SUMMARIZER_MODEL_NAME). -/
def SUMMARIZER_MODEL_NAME : String := "pulsed-summarizer"

/-- Embeds the registry transition contract used through
MLflowManager.transition_model_stage: the named version moves to the target
stage; with archive_existing, every other version of the same family currently
in the target stage moves to Archived as part of the same operation. -/
def applyTransition (reg : Registry) (name : String) (version : Nat)
    (stage : Stage) (archive_existing : Bool) : Registry :=
  reg.map (fun e =>
    if e.name == name then
      if e.version == version then { e with stage := stage }
      else if archive_existing && e.stage == stage then { e with stage := Stage.archived }
      else e
    else e)

/-- Embeds MLflowManager.get_production_model_version: the latest (highest)
version of the family currently in Production, if any. This call swallows
client errors internally (get_latest_version returns None on exception), so it
is modelled as a pure read. -/
def getProductionModelVersion (reg : Registry) (name : String) : Option Nat :=
  (reg.filter (fun e => e.name == name && e.stage == Stage.production)).foldl
    (fun acc e =>
      match acc with
      | none => some e.version
      | some v => some (max v e.version)) none

/-- Embeds the pipelines' _get_run_id_for_version: the run id recorded for a
given version of the family (None when not found; client errors are swallowed
into None by the Python try/except). -/
def getRunIdForVersion (reg : Registry) (name : String) (version : Nat) : Option String :=
  (reg.find? (fun e => e.name == name && e.version == version)).map (fun e => e.run_id)

/-- Embeds the search in ModelPromoter.promote_classifier / promote_summarizer:
the first registered version of the family whose run id matches. -/
def findVersionByRunId (reg : Registry) (name : String) (run_id : String) : Option Nat :=
  (reg.find? (fun e => e.name == name && e.run_id == run_id)).map (fun e => e.version)

/-- Embeds MLflowManager.get_model_history: all versions of the family. -/
def getModelHistory (reg : Registry) (name : String) : List RegEntry :=
  reg.filter (fun e => e.name == name)

/-- Embeds model registration performed by the training subroutine when called
with register_model=True: a new version (one above the family's current
maximum) is created at stage None, tagged with the training run id. -/
def registerModel (reg : Registry) (name : String) (run_id : String) : Registry :=
  let maxv := (reg.filter (fun e => e.name == name)).foldl (fun a e => max a e.version) 0
  reg ++ [{ name := name, version := maxv + 1, stage := Stage.nostage, run_id := run_id }]

/-- A metrics dictionary as recorded for a training run (Dict[str, float]). -/
abbrev Metrics := List (String × ℚ)

/-- Embeds Python dict .get(key, default) on a metrics dictionary. -/
def metricGetD (m : Metrics) (key : String) (dflt : ℚ) : ℚ :=
  match m.find? (fun p => p.1 == key) with
  | some p => p.2
  | none => dflt

/-- Result of the opaque training subroutine: the MLflow run id and the metrics
dictionary it recorded (test_metrics for the classifier, eval_metrics for the
summarizer). -/
structure TrainOut where
  run_id : String
  metrics : Metrics

/-- The external world of one pipeline or promoter invocation: the initial
ledger and registry, plus oracles resolving each fallible external call
(training, run-metrics lookup, registry stage transition, registry history
query, the ledger UPDATE), mirroring that these calls may raise in Python. -/
structure Env where
  db : Database
  registry : Registry
  trainResult : Except String TrainOut
  runMetrics : String → Except String Metrics
  transitionFails : Bool
  historyFails : Bool
  markFails : Bool

/-- The mutable state threaded through a run, instrumented with counters for
registry-client calls and training invocations. -/
structure RunState where
  db : Database
  registry : Registry
  registryCalls : Nat
  trainCalls : Nat
deriving DecidableEq, Repr

/-- Initial run state taken from the environment. -/
def initState (env : Env) : RunState :=
  { db := env.db, registry := env.registry, registryCalls := 0, trainCalls := 0 }

/-- Record one registry-client call. -/
def bump (st : RunState) : RunState :=
  { st with registryCalls := st.registryCalls + 1 }

/-- Embeds MLflowManager.transition_model_stage as seen by the promoter: the
underlying client call either raises (transitionFails oracle) or applies the
transition. -/
def transitionModelStage (env : Env) (reg : Registry) (name : String) (version : Nat)
    (stage : Stage) (archive_existing : Bool) : Except String Registry :=
  if env.transitionFails then Except.error "registry unavailable"
  else Except.ok (applyTransition reg name version stage archive_existing)

/-- The structured result dictionary returned by the promoter operations.
Fields absent from the Python failure dictionary are modelled as none. -/
structure PromoteResult where
  success : Bool
  model_name : Option String
  version : Option Nat
  new_stage : Option String
  previous_production : Option Nat
  reason : Option String
  error : Option String
deriving DecidableEq, Repr

/-- Embeds ModelPromoter.promote_to_staging: transition to Staging without
archiving; any exception from the client call is caught and returned as a
dictionary with success = False and the error message. -/
def promoteToStaging (env : Env) (st : RunState) (name : String) (version : Nat)
    (reason : Option String) : PromoteResult × RunState :=
  let st1 := bump st
  match transitionModelStage env st1.registry name version Stage.staging false with
  | Except.error e =>
      ({ success := false, model_name := none, version := none, new_stage := none,
         previous_production := none, reason := none, error := some e }, st1)
  | Except.ok reg' =>
      ({ success := true, model_name := some name, version := some version,
         new_stage := some "Staging", previous_production := none, reason := reason,
         error := none }, { st1 with registry := reg' })

/-- Embeds ModelPromoter.promote_to_production: reads the current Production
version for the audit record, transitions the candidate to Production with
archive_existing = True, and catches any exception of the client call into a
dictionary with success = False and the error message. The audit log write
(_log_promotion) swallows its own errors and records nothing durable. -/
def promoteToProduction (env : Env) (st : RunState) (name : String) (version : Nat)
    (reason : Option String) : PromoteResult × RunState :=
  let current_prod := getProductionModelVersion st.registry name
  let st1 := bump (bump st)
  match transitionModelStage env st1.registry name version Stage.production true with
  | Except.error e =>
      ({ success := false, model_name := none, version := none, new_stage := none,
         previous_production := none, reason := none, error := some e }, st1)
  | Except.ok reg' =>
      ({ success := true, model_name := some name, version := some version,
         new_stage := some "Production", previous_production := current_prod,
         reason := reason, error := none }, { st1 with registry := reg' })

/-- Embeds the version lookup plus promotion shared by
ModelPromoter.promote_classifier and ModelPromoter.promote_summarizer. -/
def promoteByRunId (env : Env) (st : RunState) (name : String) (run_id : String)
    (reason : Option String) : PromoteResult × RunState :=
  let st1 := bump st
  match findVersionByRunId st.registry name run_id with
  | none =>
      ({ success := false, model_name := none, version := none, new_stage := none,
         previous_production := none, reason := none,
         error := some "No model found for run ID" }, st1)
  | some v => promoteToProduction env st1 name v reason

/-- Embeds ModelPromoter.promote_classifier. -/
def promoteClassifier (env : Env) (st : RunState) (run_id : String)
    (reason : Option String) : PromoteResult × RunState :=
  promoteByRunId env st CLASSIFIER_MODEL_NAME run_id reason

/-- Embeds ModelPromoter.promote_summarizer. -/
def promoteSummarizer (env : Env) (st : RunState) (run_id : String)
    (reason : Option String) : PromoteResult × RunState :=
  promoteByRunId env st SUMMARIZER_MODEL_NAME run_id reason

/-- First entry of a list holding the maximal version number, matching the
stable descending sort by int(version) followed by taking element 0 in
ModelPromoter.rollback. -/
def firstMaxByVersion : List RegEntry → Option RegEntry
  | [] => none
  | e :: es =>
    match firstMaxByVersion es with
    | none => some e
    | some m => if m.version ≤ e.version then some e else some m

/-- Embeds ModelPromoter.rollback: with an explicit target, promote it to
Production with reason "Rollback"; otherwise pick the archived version with the
highest version number from the (error-swallowing) history query, failing with
an explicit error dictionary when no archived version exists. -/
def rollback (env : Env) (st : RunState) (name : String) (to_version : Option Nat) :
    PromoteResult × RunState :=
  match to_version with
  | some v => promoteToProduction env st name v (some "Rollback")
  | none =>
    let versions := if env.historyFails then [] else getModelHistory st.registry name
    let st1 := bump st
    let archived := versions.filter (fun e => e.stage == Stage.archived)
    match firstMaxByVersion archived with
    | none =>
        ({ success := false, model_name := none, version := none, new_stage := none,
           previous_production := none, reason := none,
           error := some "No archived versions to rollback to" }, st1)
    | some target => promoteToProduction env st1 name target.version (some "Rollback")

/-- Retraining thresholds from src/utils/config.py (RetrainConfig). -/
structure RetrainConfig where
  classifier_threshold : Nat
  summarizer_threshold : Nat
  classifier_improvement : ℚ
  summarizer_improvement : ℚ

/-- The defaults of config.RetrainConfig: 100, 50, 0.02, 0.05. -/
def defaultRetrainConfig : RetrainConfig :=
  { classifier_threshold := 100, summarizer_threshold := 50,
    classifier_improvement := 2/100, summarizer_improvement := 5/100 }

/-- Check result of ClassifierRetrainPipeline.check_retrain_needed. -/
structure CheckResult where
  needs_retrain : Bool
  feedback_count : Nat
  threshold : Nat
deriving DecidableEq, Repr

/-- Embeds ClassifierRetrainPipeline.check_retrain_needed. -/
def classifierCheckRetrainNeeded (cfg : RetrainConfig) (db : Database) : CheckResult :=
  let feedback := getUnusedClassificationFeedback db
  { needs_retrain := decide (feedback.length ≥ cfg.classifier_threshold),
    feedback_count := feedback.length,
    threshold := cfg.classifier_threshold }

/-- Check result of SummarizerRetrainPipeline.check_retrain_needed. -/
structure SummaryCheckResult where
  needs_retrain : Bool
  feedback_count : Nat
  edited_count : Nat
  good_count : Nat
  bad_count : Nat
  threshold : Nat
deriving DecidableEq, Repr

/-- Embeds SummarizerRetrainPipeline.check_retrain_needed. -/
def summarizerCheckRetrainNeeded (cfg : RetrainConfig) (db : Database) : SummaryCheckResult :=
  let feedback := getUnusedSummaryFeedback db
  { needs_retrain := decide (feedback.length ≥ cfg.summarizer_threshold),
    feedback_count := feedback.length,
    edited_count := (feedback.filter (fun f => f.summary_edited_text.isSome)).length,
    good_count := (feedback.filter (fun f => f.summary_rating == some "good")).length,
    bad_count := (feedback.filter (fun f => f.summary_rating == some "bad")).length,
    threshold := cfg.summarizer_threshold }

/-- Embeds SummarizerRetrainPipeline._prepare_training_data restricted to the
feedback ids it collects (training example payloads are opaque): an entry
contributes iff it carries edited text, or is rated "good" and a stored summary
exists for its article. The training data list and the id list grow in
lockstep, so the number of training samples equals the length of this list. -/
def summarizerPrepIds (db : Database) : List Nat :=
  (getUnusedSummaryFeedback db).filterMap (fun item =>
    if item.summary_edited_text.isSome then some item.feedback_id
    else if item.summary_rating == some "good" then
      match getSummary db item.article_id with
      | some _ => some item.feedback_id
      | none => none
    else none)

/-- The observable outcome of one pipeline run: the results dictionary fields
that encode the terminal state (retrained/promoted/error plus the check). -/
structure RunResults where
  retrained : Bool
  promoted : Bool
  error : Option String
  needs_retrain : Bool
  feedback_count : Nat
deriving DecidableEq, Repr

/-- Embeds the tail of both run() methods: mark_feedback_used is called only
when results["promoted"] is set; the UPDATE either raises (markFails oracle,
caught by the run's except into results["error"], leaving the transactional
ledger unchanged) or applies atomically. -/
def markStep (env : Env) (st : RunState) (r : RunResults) (ids : List Nat)
    (mt : MarkType) : RunResults × RunState :=
  if r.promoted then
    if env.markFails then ({ r with error := some "feedback update failed" }, st)
    else (r, { st with db := markFeedbackUsed st.db ids mt })
  else (r, st)

/-- Embeds ClassifierRetrainPipeline.run (src/pipelines/retrain_classifier.py).
Python's try/except is modelled by the Except oracle values: an error value
ends the run with results["error"] set and the state as it was at the raise.
The interpolated audit reason strings are abstracted to constants. Note that
the promoter's returned dictionary is discarded, exactly as in the source:
results["promoted"] is set to True right after the call, whether or not the
promotion succeeded. -/
def classifierRun (cfg : RetrainConfig) (env : Env) (force : Bool) :
    RunResults × RunState :=
  let st0 := initState env
  let check := classifierCheckRetrainNeeded cfg env.db
  let base : RunResults :=
    { retrained := false, promoted := false, error := none,
      needs_retrain := check.needs_retrain, feedback_count := check.feedback_count }
  if !check.needs_retrain && !force then
    (base, st0)
  else
    let feedback := getUnusedClassificationFeedback env.db
    let feedback_ids := feedback.map (fun f => f.feedback_id)
    if feedback.isEmpty then
      ({ base with error := some "No training data" }, st0)
    else
      match env.trainResult with
      | Except.error e =>
          ({ base with error := some e }, { st0 with trainCalls := st0.trainCalls + 1 })
      | Except.ok t =>
        let st1 :=
          { st0 with
            trainCalls := st0.trainCalls + 1,
            registry := registerModel st0.registry CLASSIFIER_MODEL_NAME t.run_id }
        let st2 := bump st1
        match getProductionModelVersion st1.registry CLASSIFIER_MODEL_NAME with
        | some current_version =>
          let st3 := bump st2
          let metricsRes :=
            match getRunIdForVersion st2.registry CLASSIFIER_MODEL_NAME current_version with
            | none => Except.error "run not found"
            | some rid => env.runMetrics rid
          match metricsRes with
          | Except.error e => ({ base with retrained := true, error := some e }, st3)
          | Except.ok current_metrics =>
            let new_accuracy := metricGetD t.metrics "test_accuracy" 0
            let current_accuracy := metricGetD current_metrics "test_accuracy" 0
            let improvement := new_accuracy - current_accuracy
            if improvement ≥ cfg.classifier_improvement then
              let pr := promoteClassifier env st3 t.run_id (some "Improved accuracy")
              markStep env pr.2 { base with retrained := true, promoted := true }
                feedback_ids MarkType.classifier
            else
              ({ base with retrained := true, promoted := false }, st3)
        | none =>
          let pr := promoteClassifier env st2 t.run_id (some "Initial production model")
          markStep env pr.2 { base with retrained := true, promoted := true }
            feedback_ids MarkType.classifier

/-- Embeds SummarizerRetrainPipeline.run (src/pipelines/retrain_summarizer.py).
Same conventions as classifierRun. The final mark_feedback_used call in the
source passes no model_type, so Python's default "both" applies; the embedding
passes MarkType.both at that call site to match. -/
def summarizerRun (cfg : RetrainConfig) (env : Env) (force : Bool) :
    RunResults × RunState :=
  let st0 := initState env
  let check := summarizerCheckRetrainNeeded cfg env.db
  let base : RunResults :=
    { retrained := false, promoted := false, error := none,
      needs_retrain := check.needs_retrain, feedback_count := check.feedback_count }
  if !check.needs_retrain && !force then
    (base, st0)
  else
    let feedback_ids := summarizerPrepIds env.db
    if feedback_ids.isEmpty then
      ({ base with error := some "No usable training data" }, st0)
    else
      match env.trainResult with
      | Except.error e =>
          ({ base with error := some e }, { st0 with trainCalls := st0.trainCalls + 1 })
      | Except.ok t =>
        let st1 :=
          { st0 with
            trainCalls := st0.trainCalls + 1,
            registry := registerModel st0.registry SUMMARIZER_MODEL_NAME t.run_id }
        let st2 := bump st1
        match getProductionModelVersion st1.registry SUMMARIZER_MODEL_NAME with
        | some current_version =>
          let st3 := bump st2
          let metricsRes :=
            match getRunIdForVersion st2.registry SUMMARIZER_MODEL_NAME current_version with
            | none => Except.error "run not found"
            | some rid => env.runMetrics rid
          match metricsRes with
          | Except.error e => ({ base with retrained := true, error := some e }, st3)
          | Except.ok current_metrics =>
            let new_loss := metricGetD t.metrics "eval_loss" 1
            let current_loss := metricGetD current_metrics "eval_loss" 1
            let improvement := current_loss - new_loss
            let good_pct : ℚ := (check.good_count : ℚ) / (max check.feedback_count 1 : ℚ)
            if improvement ≥ cfg.summarizer_improvement ∨ good_pct > 7/10 then
              let pr := promoteSummarizer env st3 t.run_id (some "Improved loss or good rating")
              markStep env pr.2 { base with retrained := true, promoted := true }
                feedback_ids MarkType.both
            else
              ({ base with retrained := true, promoted := false }, st3)
        | none =>
          let pr := promoteSummarizer env st2 t.run_id (some "Initial production model")
          markStep env pr.2 { base with retrained := true, promoted := true }
            feedback_ids MarkType.both

/-- Result dictionary of DriftDetector.chi_square_test: in the insufficient
case the dictionary carries only drift_detected = False and a reason, no
p_value. -/
structure ChiSquareResult where
  drift_detected : Bool
  p_value : Option ℚ
  reason : Option String
deriving DecidableEq, Repr

/-- Python dict .get(key, 0) over a label-count table. -/
def countGetD (l : List (String × Nat)) (key : String) : Nat :=
  match l.find? (fun p => p.1 == key) with
  | some p => p.2
  | none => 0

/-- The category union built by chi_square_test from the two count tables. -/
def keysUnion (a b : List (String × Nat)) : List String :=
  (a.map Prod.fst ++ b.map Prod.fst).dedup

/-- The two window totals computed by chi_square_test: the sums of the
reference and current counts over the category union. -/
def chiTotals (reference_counts current_counts : List (String × Nat)) : Nat × Nat :=
  let categories := keysUnion reference_counts current_counts
  (((categories.map (fun c => countGetD reference_counts c)).sum),
   ((categories.map (fun c => countGetD current_counts c)).sum))

/-- Embeds DriftDetector.chi_square_test. The chi-square survival function
evaluated by scipy to produce the p-value is transcendental, so it enters as
the oracle argument pval (the p-value scipy returns for this data); the control
flow around it — the insufficient-data guard on the window totals and the
comparison of the p-value with the significance threshold — is modelled
exactly. -/
def chiSquareTest (threshold pval : ℚ)
    (reference_counts current_counts : List (String × Nat)) : ChiSquareResult :=
  let totals := chiTotals reference_counts current_counts
  if totals.1 == 0 || totals.2 == 0 then
    { drift_detected := false, p_value := none, reason := some "Insufficient data" }
  else
    { drift_detected := decide (pval < threshold), p_value := some pval, reason := none }

/-- The label aggregation loop of DriftDetector.detect_prediction_drift:
date-bucketed (label, count) rows are summed into one count per label. -/
def aggregateCounts (rows : List (String × Nat)) : List (String × Nat) :=
  rows.foldl (fun acc row =>
    match acc.find? (fun p => p.1 == row.1) with
    | some _ => acc.map (fun p => if p.1 == row.1 then (p.1, p.2 + row.2) else p)
    | none => acc ++ [(row.1, row.2)]) []

/-- Embeds DriftDetector.detect_prediction_drift, with the database
distribution query results supplied as the row lists. -/
def detectPredictionDrift (threshold pval : ℚ)
    (ref_rows cur_rows : List (String × Nat)) : ChiSquareResult :=
  chiSquareTest threshold pval (aggregateCounts ref_rows) (aggregateCounts cur_rows)

/-- The drift report of DriftDetector.get_drift_report: the prediction-drift
test result plus the derived alert level and recommendation text. -/
structure DriftReport where
  prediction_drift : ChiSquareResult
  alert_level : String
  recommendation : String
deriving DecidableEq, Repr

/-- Embeds DriftDetector.get_drift_report: alert "high" when drift_detected,
otherwise "medium" when the report's p-value (defaulted to 1 when absent) is
below 0.1, otherwise "low". The detector's default significance threshold is
0.05 (DriftDetector.__init__). -/
def getDriftReport (threshold pval : ℚ)
    (ref_rows cur_rows : List (String × Nat)) : DriftReport :=
  let pd := detectPredictionDrift threshold pval ref_rows cur_rows
  if pd.drift_detected then
    { prediction_drift := pd, alert_level := "high",
      recommendation := "Consider investigating recent data and retraining models" }
  else if pd.p_value.getD 1 < 1/10 then
    { prediction_drift := pd, alert_level := "medium",
      recommendation := "Monitor closely, drift may be emerging" }
  else
    { prediction_drift := pd, alert_level := "low",
      recommendation := "No action needed" }

section HelperLemmas

@[simp]
theorem nostage_beq_production : (Stage.nostage == Stage.production) = false := by decide

/-- markEntry never changes the primary key. -/
@[simp]
theorem markEntry_feedback_id (mt : MarkType) (f : FeedbackEntry) :
    (markEntry mt f).feedback_id = f.feedback_id := by
  cases mt <;> rfl

/-- markEntry is idempotent: it only sets flags to constants. -/
@[simp]
theorem markEntry_idem (mt : MarkType) (f : FeedbackEntry) :
    markEntry mt (markEntry mt f) = markEntry mt f := by
  cases mt <;> rfl

/-- The promoter operations never touch the feedback ledger. -/
@[simp]
theorem promoteToProduction_db (env : Env) (st : RunState) (name : String)
    (version : Nat) (reason : Option String) :
    (promoteToProduction env st name version reason).2.db = st.db := by
  unfold promoteToProduction transitionModelStage
  split <;> simp [bump]

@[simp]
theorem promoteByRunId_db (env : Env) (st : RunState) (name : String)
    (run_id : String) (reason : Option String) :
    (promoteByRunId env st name run_id reason).2.db = st.db := by
  unfold promoteByRunId
  split
  · simp [bump]
  · simp [bump]

@[simp]
theorem promoteClassifier_db (env : Env) (st : RunState) (run_id : String)
    (reason : Option String) :
    (promoteClassifier env st run_id reason).2.db = st.db := by
  unfold promoteClassifier
  simp

@[simp]
theorem promoteSummarizer_db (env : Env) (st : RunState) (run_id : String)
    (reason : Option String) :
    (promoteSummarizer env st run_id reason).2.db = st.db := by
  unfold promoteSummarizer
  simp

/-- markStep preserves the promoted flag of the results dictionary. -/
@[simp]
theorem markStep_promoted (env : Env) (st : RunState) (r : RunResults)
    (ids : List Nat) (mt : MarkType) :
    (markStep env st r ids mt).1.promoted = r.promoted := by
  unfold markStep
  split <;> [skip; rfl]
  split <;> rfl

/-- markStep preserves the retrained flag of the results dictionary. -/
@[simp]
theorem markStep_retrained (env : Env) (st : RunState) (r : RunResults)
    (ids : List Nat) (mt : MarkType) :
    (markStep env st r ids mt).1.retrained = r.retrained := by
  unfold markStep
  split <;> [skip; rfl]
  split <;> rfl

/-- Registering a new version (at stage None) does not change which version is
in Production. -/
theorem getProductionModelVersion_registerModel (reg : Registry) (n m rid : String) :
    getProductionModelVersion (registerModel reg n rid) m
      = getProductionModelVersion reg m := by
  unfold getProductionModelVersion registerModel
  simp [List.filter_append]

/-- firstMaxByVersion returns none exactly on the empty list. -/
theorem firstMaxByVersion_eq_none {l : List RegEntry} :
    firstMaxByVersion l = none ↔ l = [] := by
  cases l with
  | nil => simp [firstMaxByVersion]
  | cons e es =>
    simp only [firstMaxByVersion]
    cases h : firstMaxByVersion es <;> simp
    split <;> simp

/-- firstMaxByVersion returns an element of the list whose version bounds every
element's version. -/
theorem firstMaxByVersion_spec {l : List RegEntry} {m : RegEntry}
    (h : firstMaxByVersion l = some m) :
    m ∈ l ∧ ∀ e ∈ l, e.version ≤ m.version := by
  induction l generalizing m with
  | nil => simp [firstMaxByVersion] at h
  | cons e es ih =>
    simp only [firstMaxByVersion] at h
    cases hrec : firstMaxByVersion es with
    | none =>
      simp only [hrec] at h
      obtain rfl : e = m := by simpa using h
      have hnil : es = [] := firstMaxByVersion_eq_none.mp hrec
      subst hnil
      simp
    | some m' =>
      obtain ⟨hm', hall⟩ := ih hrec
      simp only [hrec] at h
      by_cases hle : m'.version ≤ e.version
      · rw [if_pos hle] at h
        obtain rfl : e = m := by simpa using h
        refine ⟨List.mem_cons_self _ _, ?_⟩
        intro x hx
        rcases List.mem_cons.mp hx with rfl | hx
        · exact le_refl _
        · exact le_trans (hall x hx) hle
      · rw [if_neg hle] at h
        obtain rfl : m' = m := by simpa using h
        refine ⟨List.mem_cons_of_mem _ hm', ?_⟩
        intro x hx
        rcases List.mem_cons.mp hx with rfl | hx
        · exact le_of_not_le hle
        · exact hall x hx

end HelperLemmas

/-! ## C9: idempotent consumption -/

/-- C9: for every set of feedback ids and every model_type, calling
mark_feedback_used twice in succession with the same arguments produces
exactly the same ledger state as calling it once. -/
theorem mark_feedback_used_idempotent (db : Database) (ids : List Nat) (mt : MarkType) :
    markFeedbackUsed (markFeedbackUsed db ids mt) ids mt = markFeedbackUsed db ids mt := by
  unfold markFeedbackUsed
  cases h : ids.isEmpty
  · simp only [h, Bool.false_eq_true, if_false]
    refine congrArg (fun l => Database.mk db.articles db.summaries l) ?_
    rw [List.map_map]
    refine List.map_congr_left ?_
    intro f _
    simp only [Function.comp_apply]
    cases hc : ids.contains f.feedback_id
    · simp only [hc, Bool.false_eq_true, if_false]
    · simp only [hc, if_true, markEntry_feedback_id, markEntry_idem]
  · simp [h]

/-! ## C10: promoter operations catch registry failures -/

/-- C10: the promoter operations promote_to_production, promote_to_staging and
rollback are total functions into a structured result dictionary; when the
underlying registry transition call fails, each returns success = False with an
error message instead of propagating the exception, so a caller that does not
inspect the success field cannot observe the failure. -/
theorem promoter_catches_registry_failure (env : Env) (st : RunState) (name : String)
    (version : Nat) (reason : Option String) (to_version : Option Nat)
    (h : env.transitionFails = true) :
    ((promoteToStaging env st name version reason).1.success = false
      ∧ ((promoteToStaging env st name version reason).1.error).isSome = true)
    ∧ ((promoteToProduction env st name version reason).1.success = false
      ∧ ((promoteToProduction env st name version reason).1.error).isSome = true)
    ∧ ((rollback env st name to_version).1.success = false
      ∧ ((rollback env st name to_version).1.error).isSome = true) := by
  refine ⟨?_, ?_, ?_⟩
  · unfold promoteToStaging transitionModelStage
    simp [h]
  · unfold promoteToProduction transitionModelStage
    simp [h]
  · unfold rollback
    cases to_version with
    | some v =>
      unfold promoteToProduction transitionModelStage
      simp [h]
    | none =>
      simp only []
      cases hfm : firstMaxByVersion
          (((if env.historyFails then [] else getModelHistory st.registry name)).filter
            (fun e => e.stage == Stage.archived)) with
      | none => simp [hfm]
      | some target =>
        simp only [hfm]
        unfold promoteToProduction transitionModelStage
        simp [h]

/-- Concrete environment for the C10 witness: a registry whose transition call
fails. -/
def envC10 : Env :=
  { db := { articles := [], summaries := [], feedback := [] },
    registry := [{ name := "pulsed-classifier", version := 1,
                   stage := Stage.production, run_id := "r1" }],
    trainResult := Except.error "unused",
    runMetrics := fun _ => Except.error "unused",
    transitionFails := true,
    historyFails := false,
    markFails := false }

/-- Witness for C10 at a concrete failing registry. -/
theorem promoter_catches_registry_failure_witness :
    envC10.transitionFails = true
    ∧ (((promoteToStaging envC10 (initState envC10) "pulsed-classifier" 1 none).1.success = false
        ∧ ((promoteToStaging envC10 (initState envC10) "pulsed-classifier" 1 none).1.error).isSome = true)
      ∧ ((promoteToProduction envC10 (initState envC10) "pulsed-classifier" 1 none).1.success = false
        ∧ ((promoteToProduction envC10 (initState envC10) "pulsed-classifier" 1 none).1.error).isSome = true)
      ∧ ((rollback envC10 (initState envC10) "pulsed-classifier" none).1.success = false
        ∧ ((rollback envC10 (initState envC10) "pulsed-classifier" none).1.error).isSome = true)) :=
  ⟨rfl, promoter_catches_registry_failure envC10 (initState envC10) "pulsed-classifier" 1 none none rfl⟩

/-! ## C6: rollback with no explicit target -/

/-- C6: for every rollback call with no explicit target version: when at least
one Archived version of the family exists, the Archived version with the
numerically highest version number is promoted through the normal
promote_to_production operation with reason "Rollback"; when no Archived
version exists, the call fails with an explicit error dictionary and performs
no stage transition. Stated under a successful history query (the Python
get_model_history call swallows its own client errors into an empty list). -/
theorem rollback_default_target (env : Env) (st : RunState) (name : String)
    (hHist : env.historyFails = false) :
    (((getModelHistory st.registry name).filter (fun e => e.stage == Stage.archived)) ≠ [] →
      ∃ target,
        target ∈ ((getModelHistory st.registry name).filter (fun e => e.stage == Stage.archived))
        ∧ (∀ e ∈ ((getModelHistory st.registry name).filter (fun e => e.stage == Stage.archived)),
            e.version ≤ target.version)
        ∧ rollback env st name none
            = promoteToProduction env (bump st) name target.version (some "Rollback"))
    ∧ (((getModelHistory st.registry name).filter (fun e => e.stage == Stage.archived)) = [] →
      (rollback env st name none).1.success = false
      ∧ (rollback env st name none).1.error = some "No archived versions to rollback to"
      ∧ (rollback env st name none).2.registry = st.registry
      ∧ (rollback env st name none).2.db = st.db) := by
  constructor
  · intro hne
    cases hfm : firstMaxByVersion
        (((getModelHistory st.registry name).filter (fun e => e.stage == Stage.archived))) with
    | none => exact absurd (firstMaxByVersion_eq_none.mp hfm) hne
    | some target =>
      obtain ⟨hmem, hall⟩ := firstMaxByVersion_spec hfm
      refine ⟨target, hmem, hall, ?_⟩
      unfold rollback
      simp only [hHist, Bool.false_eq_true, if_false, hfm]
  · intro hempty
    unfold rollback
    simp only [hHist, Bool.false_eq_true, if_false, hempty]
    simp [firstMaxByVersion, bump]

/-- Concrete environment for the C6 witness: archived versions 3, 5, 7 and
Production version 8, matching the scenario in the specification. -/
def envC6 : Env :=
  { db := { articles := [], summaries := [], feedback := [] },
    registry := [{ name := "pulsed-classifier", version := 3,
                   stage := Stage.archived, run_id := "r3" },
                 { name := "pulsed-classifier", version := 5,
                   stage := Stage.archived, run_id := "r5" },
                 { name := "pulsed-classifier", version := 7,
                   stage := Stage.archived, run_id := "r7" },
                 { name := "pulsed-classifier", version := 8,
                   stage := Stage.production, run_id := "r8" }],
    trainResult := Except.error "unused",
    runMetrics := fun _ => Except.error "unused",
    transitionFails := false,
    historyFails := false,
    markFails := false }

/-- Witness for C6: on archived versions 3, 5 and 7 with Production version 8,
rollback with no explicit target promotes version 7. -/
theorem rollback_default_target_witness :
    envC6.historyFails = false
    ∧ (((getModelHistory (initState envC6).registry "pulsed-classifier").filter
          (fun e => e.stage == Stage.archived)) ≠ []
        ∧ ∃ target,
            target ∈ ((getModelHistory (initState envC6).registry "pulsed-classifier").filter
              (fun e => e.stage == Stage.archived))
            ∧ (∀ e ∈ ((getModelHistory (initState envC6).registry "pulsed-classifier").filter
                (fun e => e.stage == Stage.archived)), e.version ≤ target.version)
            ∧ rollback envC6 (initState envC6) "pulsed-classifier" none
                = promoteToProduction envC6 (bump (initState envC6)) "pulsed-classifier"
                    target.version (some "Rollback"))
    ∧ (rollback envC6 (initState envC6) "pulsed-classifier" none).1.version = some 7
    ∧ (rollback envC6 (initState envC6) "pulsed-classifier" none).1.success = true :=
  ⟨rfl,
   ⟨by decide,
    (rollback_default_target envC6 (initState envC6) "pulsed-classifier" rfl).1 (by decide)⟩,
   by decide, by decide⟩

/-! ## C7: drift alert level derivation -/

/-- C7 counterexample: with an adequate reference window but an empty current
window (current total zero), get_drift_report labels the report "low", not
"unknown" or "insufficient"; the inadequacy is only visible in the nested
test result's reason field. This refutes the claim's last clause. -/
theorem drift_alert_insufficient_not_unknown :
    (getDriftReport (1/20) 0 [("garbage", 10)] []).alert_level = "low"
    ∧ (getDriftReport (1/20) 0 [("garbage", 10)] []).prediction_drift.reason
        = some "Insufficient data"
    ∧ (getDriftReport (1/20) 0 [("garbage", 10)] []).prediction_drift.p_value = none
    ∧ (getDriftReport (1/20) 0 [("garbage", 10)] []).alert_level ≠ "unknown"
    ∧ (getDriftReport (1/20) 0 [("garbage", 10)] []).alert_level ≠ "insufficient" := by
  have hpd : detectPredictionDrift (1/20) 0 [("garbage", 10)] []
      = { drift_detected := false, p_value := none, reason := some "Insufficient data" } := by
    unfold detectPredictionDrift chiSquareTest chiTotals keysUnion aggregateCounts countGetD
    simp
  have hdt := congrArg ChiSquareResult.drift_detected hpd
  have hpv := congrArg ChiSquareResult.p_value hpd
  have h10 : ¬ ((Option.none : Option ℚ).getD 1 < 1/10) := by
    simp only [Option.getD_none]
    norm_num
  simp only [getDriftReport, hdt, hpv, Bool.false_eq_true, if_false, h10, hpd]
  exact ⟨trivial, trivial, trivial, by decide, by decide⟩

/-- C7 amended: with the default significance threshold 0.05, the alert level
of a drift report is "high" iff the p-value is below 0.05 (drift detected),
"medium" iff drift is not detected and the p-value is below 0.10, and "low"
otherwise; when either window total is zero the report carries reason
"Insufficient data" and no p-value, and its alert level is "low" (not
"unknown"/"insufficient"). -/
theorem drift_alert_derivation (pval : ℚ) (ref_rows cur_rows : List (String × Nat)) :
    ((chiTotals (aggregateCounts ref_rows) (aggregateCounts cur_rows)).1 ≠ 0 →
     (chiTotals (aggregateCounts ref_rows) (aggregateCounts cur_rows)).2 ≠ 0 →
      (((getDriftReport (1/20) pval ref_rows cur_rows).alert_level = "high" ↔ pval < 1/20)
        ∧ (¬ pval < 1/20 →
            ((getDriftReport (1/20) pval ref_rows cur_rows).alert_level = "medium" ↔ pval < 1/10))
        ∧ (¬ pval < 1/20 → ¬ pval < 1/10 →
            (getDriftReport (1/20) pval ref_rows cur_rows).alert_level = "low")))
    ∧ (((chiTotals (aggregateCounts ref_rows) (aggregateCounts cur_rows)).1 = 0
        ∨ (chiTotals (aggregateCounts ref_rows) (aggregateCounts cur_rows)).2 = 0) →
      ((getDriftReport (1/20) pval ref_rows cur_rows).alert_level = "low"
        ∧ (getDriftReport (1/20) pval ref_rows cur_rows).prediction_drift.reason
            = some "Insufficient data"
        ∧ (getDriftReport (1/20) pval ref_rows cur_rows).prediction_drift.p_value = none)) := by
  constructor
  · intro h1 h2
    have hpd : detectPredictionDrift (1/20) pval ref_rows cur_rows
        = { drift_detected := decide (pval < 1/20), p_value := some pval, reason := none } := by
      unfold detectPredictionDrift chiSquareTest
      have hb : ((chiTotals (aggregateCounts ref_rows) (aggregateCounts cur_rows)).1 == 0
          || (chiTotals (aggregateCounts ref_rows) (aggregateCounts cur_rows)).2 == 0) = false := by
        simp [h1, h2]
      simp only [hb, Bool.false_eq_true, if_false]
    have hdt : (detectPredictionDrift (1/20) pval ref_rows cur_rows).drift_detected
        = decide (pval < 1/20) := by rw [hpd]
    have hpv : (detectPredictionDrift (1/20) pval ref_rows cur_rows).p_value
        = some pval := by rw [hpd]
    simp only [getDriftReport, hdt, hpv, Option.getD_some]
    by_cases hp : pval < 1/20
    · rw [if_pos (decide_eq_true hp)]
      exact ⟨Iff.intro (fun _ => hp) (fun _ => rfl),
             fun hcon => absurd hp hcon, fun hcon _ => absurd hp hcon⟩
    · rw [if_neg (fun hcon => absurd (of_decide_eq_true hcon) hp)]
      by_cases hp10 : pval < 1/10
      · rw [if_pos hp10]
        refine ⟨?_, fun _ => Iff.intro (fun _ => hp10) (fun _ => rfl),
                fun _ hcon => absurd hp10 hcon⟩
        exact Iff.intro
          (fun hstr => absurd (show "medium" = "high" from hstr) (by decide))
          (fun hlt => absurd hlt hp)
      · rw [if_neg hp10]
        refine ⟨?_, fun _ => ?_, fun _ _ => rfl⟩
        · exact Iff.intro
            (fun hstr => absurd (show "low" = "high" from hstr) (by decide))
            (fun hlt => absurd hlt hp)
        · exact Iff.intro
            (fun hstr => absurd (show "low" = "medium" from hstr) (by decide))
            (fun hlt => absurd hlt hp10)
  · intro h
    have hpd : detectPredictionDrift (1/20) pval ref_rows cur_rows
        = { drift_detected := false, p_value := none, reason := some "Insufficient data" } := by
      unfold detectPredictionDrift chiSquareTest
      have hb : ((chiTotals (aggregateCounts ref_rows) (aggregateCounts cur_rows)).1 == 0
          || (chiTotals (aggregateCounts ref_rows) (aggregateCounts cur_rows)).2 == 0) = true := by
        rcases h with h | h <;> simp [h]
      simp only [hb, if_true]
    have hdt : (detectPredictionDrift (1/20) pval ref_rows cur_rows).drift_detected
        = false := by rw [hpd]
    have hpv : (detectPredictionDrift (1/20) pval ref_rows cur_rows).p_value
        = none := by rw [hpd]
    have h10 : ¬ ((Option.none : Option ℚ).getD 1 < 1/10) := by
      simp only [Option.getD_none]
      norm_num
    simp only [getDriftReport, hdt, hpv, Bool.false_eq_true, if_false, h10, hpd]
    exact ⟨trivial, trivial, trivial⟩

/-- Witness for C7's amended theorem at adequate windows: reference 10, current
5 on one label, with p-value 1/100 (below the 0.05 significance threshold). -/
theorem drift_alert_derivation_witness :
    (chiTotals (aggregateCounts [("garbage", 10)]) (aggregateCounts [("garbage", 5)])).1 ≠ 0
    ∧ (chiTotals (aggregateCounts [("garbage", 10)]) (aggregateCounts [("garbage", 5)])).2 ≠ 0
    ∧ (((getDriftReport (1/20) (1/100) [("garbage", 10)] [("garbage", 5)]).alert_level = "high"
          ↔ (1:ℚ)/100 < 1/20)
        ∧ (¬ (1:ℚ)/100 < 1/20 →
            ((getDriftReport (1/20) (1/100) [("garbage", 10)] [("garbage", 5)]).alert_level
              = "medium" ↔ (1:ℚ)/100 < 1/10))
        ∧ (¬ (1:ℚ)/100 < 1/20 → ¬ (1:ℚ)/100 < 1/10 →
            (getDriftReport (1/20) (1/100) [("garbage", 10)] [("garbage", 5)]).alert_level
              = "low")) :=
  ⟨by decide, by decide,
   (drift_alert_derivation (1/100) [("garbage", 10)] [("garbage", 5)]).1
     (by decide) (by decide)⟩

/-! ## C8: threshold gating -/

/-- C8: for every retraining run invoked with force = False whose unconsumed
relevant feedback count is strictly below the configured default threshold
(100 for the classifier, 50 for the summarizer), run() reports needs_retrain
false with no training, no error, and a final state identical to the initial
one: no registry calls, no training calls, and an unchanged ledger. -/
theorem threshold_gating (env : Env) :
    ((getUnusedClassificationFeedback env.db).length < 100 →
      ((classifierRun defaultRetrainConfig env false).1.needs_retrain = false
        ∧ (classifierRun defaultRetrainConfig env false).1.retrained = false
        ∧ (classifierRun defaultRetrainConfig env false).1.promoted = false
        ∧ (classifierRun defaultRetrainConfig env false).1.error = none
        ∧ (classifierRun defaultRetrainConfig env false).2 = initState env))
    ∧ ((getUnusedSummaryFeedback env.db).length < 50 →
      ((summarizerRun defaultRetrainConfig env false).1.needs_retrain = false
        ∧ (summarizerRun defaultRetrainConfig env false).1.retrained = false
        ∧ (summarizerRun defaultRetrainConfig env false).1.promoted = false
        ∧ (summarizerRun defaultRetrainConfig env false).1.error = none
        ∧ (summarizerRun defaultRetrainConfig env false).2 = initState env)) := by
  constructor
  · intro h
    have hnr : (classifierCheckRetrainNeeded defaultRetrainConfig env.db).needs_retrain
        = false := by
      unfold classifierCheckRetrainNeeded defaultRetrainConfig
      simp only [decide_eq_false_iff_not]
      omega
    simp only [classifierRun, hnr, Bool.not_false, Bool.and_self, if_true]
    exact ⟨trivial, trivial, trivial, trivial, trivial⟩
  · intro h
    have hnr : (summarizerCheckRetrainNeeded defaultRetrainConfig env.db).needs_retrain
        = false := by
      unfold summarizerCheckRetrainNeeded defaultRetrainConfig
      simp only [decide_eq_false_iff_not]
      omega
    simp only [summarizerRun, hnr, Bool.not_false, Bool.and_self, if_true]
    exact ⟨trivial, trivial, trivial, trivial, trivial⟩

/-- Concrete environment for the C8 witness: an empty ledger, so both
unconsumed counts are 0, below both default thresholds. -/
def envC8 : Env :=
  { db := { articles := [], summaries := [], feedback := [] },
    registry := [],
    trainResult := Except.error "unused",
    runMetrics := fun _ => Except.error "unused",
    transitionFails := false,
    historyFails := false,
    markFails := false }

/-- Witness for C8 on the empty ledger. -/
theorem threshold_gating_witness :
    (getUnusedClassificationFeedback envC8.db).length < 100
    ∧ ((classifierRun defaultRetrainConfig envC8 false).1.needs_retrain = false
        ∧ (classifierRun defaultRetrainConfig envC8 false).1.retrained = false
        ∧ (classifierRun defaultRetrainConfig envC8 false).1.promoted = false
        ∧ (classifierRun defaultRetrainConfig envC8 false).1.error = none
        ∧ (classifierRun defaultRetrainConfig envC8 false).2 = initState envC8)
    ∧ (getUnusedSummaryFeedback envC8.db).length < 50
    ∧ ((summarizerRun defaultRetrainConfig envC8 false).1.needs_retrain = false
        ∧ (summarizerRun defaultRetrainConfig envC8 false).1.retrained = false
        ∧ (summarizerRun defaultRetrainConfig envC8 false).1.promoted = false
        ∧ (summarizerRun defaultRetrainConfig envC8 false).1.error = none
        ∧ (summarizerRun defaultRetrainConfig envC8 false).2 = initState envC8) :=
  ⟨by decide, (threshold_gating envC8).1 (by decide),
   by decide, (threshold_gating envC8).2 (by decide)⟩

/-! ## C3: failed or skipped runs leave consumption unchanged -/

/-- The feedback ids currently consumed for classifier training. -/
def consumedClassifierIds (db : Database) : List Nat :=
  (db.feedback.filter (fun f => f.used_for_classifier_training)).map (fun f => f.feedback_id)

/-- The feedback ids currently consumed for summarizer training. -/
def consumedSummarizerIds (db : Database) : List Nat :=
  (db.feedback.filter (fun f => f.used_for_summarizer_training)).map (fun f => f.feedback_id)

/-- A classifier run either leaves the ledger untouched or ends promoted with
no error. -/
theorem classifierRun_db_cases (cfg : RetrainConfig) (env : Env) (force : Bool) :
    (classifierRun cfg env force).2.db = env.db
    ∨ ((classifierRun cfg env force).1.promoted = true
        ∧ (classifierRun cfg env force).1.error = none) := by
  simp only [classifierRun]
  split
  · left; rfl
  · split
    · left; rfl
    · split
      · left; rfl
      · split
        · split
          · left; rfl
          · split
            · simp only [markStep]
              split
              · split
                · left; simp [initState, bump]
                · right; exact ⟨rfl, rfl⟩
              · left; simp [initState, bump]
            · left; rfl
        · simp only [markStep]
          split
          · split
            · left; simp [initState, bump]
            · right; exact ⟨rfl, rfl⟩
          · left; simp [initState, bump]

/-- A summarizer run either leaves the ledger untouched or ends promoted with
no error. -/
theorem summarizerRun_db_cases (cfg : RetrainConfig) (env : Env) (force : Bool) :
    (summarizerRun cfg env force).2.db = env.db
    ∨ ((summarizerRun cfg env force).1.promoted = true
        ∧ (summarizerRun cfg env force).1.error = none) := by
  simp only [summarizerRun]
  split
  · left; rfl
  · split
    · left; rfl
    · split
      · left; rfl
      · split
        · split
          · left; rfl
          · split
            · simp only [markStep]
              split
              · split
                · left; simp [initState, bump]
                · right; exact ⟨rfl, rfl⟩
              · left; simp [initState, bump]
            · left; rfl
        · simp only [markStep]
          split
          · split
            · left; simp [initState, bump]
            · right; exact ⟨rfl, rfl⟩
          · left; simp [initState, bump]

/-- C3: for every retraining run ending Failed (an error recorded in the
results) or Skipped (retrained but not promoted), the set of feedback ids
consumed for that run's model family is exactly the same after the run as
before it. -/
theorem failed_or_skipped_leaves_consumption (cfg : RetrainConfig) (env : Env) (force : Bool) :
    ((((classifierRun cfg env force).1.error).isSome = true
        ∨ ((classifierRun cfg env force).1.retrained = true
            ∧ (classifierRun cfg env force).1.promoted = false)) →
      consumedClassifierIds (classifierRun cfg env force).2.db
        = consumedClassifierIds env.db)
    ∧ ((((summarizerRun cfg env force).1.error).isSome = true
        ∨ ((summarizerRun cfg env force).1.retrained = true
            ∧ (summarizerRun cfg env force).1.promoted = false)) →
      consumedSummarizerIds (summarizerRun cfg env force).2.db
        = consumedSummarizerIds env.db) := by
  constructor
  · intro hFS
    rcases classifierRun_db_cases cfg env force with hdb | ⟨hp, he⟩
    · rw [hdb]
    · rcases hFS with hErr | ⟨_, hNp⟩
      · rw [he] at hErr
        simp at hErr
      · rw [hp] at hNp
        simp at hNp
  · intro hFS
    rcases summarizerRun_db_cases cfg env force with hdb | ⟨hp, he⟩
    · rw [hdb]
    · rcases hFS with hErr | ⟨_, hNp⟩
      · rw [he] at hErr
        simp at hErr
      · rw [hp] at hNp
        simp at hNp

/-- Concrete environment for the C3 witness: one classification feedback row
and one rated summary feedback row, with a training subroutine that raises, so
both forced runs end Failed. -/
def envC3 : Env :=
  { db := { articles := [{ article_id := "a1", title := "t1",
                           abstract := none, full_text := none }],
            summaries := [{ article_id := "a1", summary_text := "s" }],
            feedback := [{ feedback_id := 1, article_id := "a1",
                           predicted_label := some "garbage",
                           correct_label := some "important",
                           classifier_version := some "v1",
                           summary_rating := none, summary_edited_text := none,
                           summary_issues := none, summarizer_version := none,
                           used_for_training := false,
                           used_for_classifier_training := false,
                           used_for_summarizer_training := false },
                         { feedback_id := 2, article_id := "a1",
                           predicted_label := none, correct_label := none,
                           classifier_version := none,
                           summary_rating := some "good",
                           summary_edited_text := none,
                           summary_issues := none,
                           summarizer_version := some "v1",
                           used_for_training := false,
                           used_for_classifier_training := false,
                           used_for_summarizer_training := false }] },
    registry := [],
    trainResult := Except.error "training crashed",
    runMetrics := fun _ => Except.error "unused",
    transitionFails := false,
    historyFails := false,
    markFails := false }

/-- Witness for C3: both forced runs on envC3 fail in training and leave the
consumed-id sets unchanged. -/
theorem failed_or_skipped_leaves_consumption_witness :
    (((classifierRun defaultRetrainConfig envC3 true).1.error).isSome = true
      ∨ ((classifierRun defaultRetrainConfig envC3 true).1.retrained = true
          ∧ (classifierRun defaultRetrainConfig envC3 true).1.promoted = false))
    ∧ consumedClassifierIds (classifierRun defaultRetrainConfig envC3 true).2.db
        = consumedClassifierIds envC3.db
    ∧ (((summarizerRun defaultRetrainConfig envC3 true).1.error).isSome = true
      ∨ ((summarizerRun defaultRetrainConfig envC3 true).1.retrained = true
          ∧ (summarizerRun defaultRetrainConfig envC3 true).1.promoted = false))
    ∧ consumedSummarizerIds (summarizerRun defaultRetrainConfig envC3 true).2.db
        = consumedSummarizerIds envC3.db :=
  ⟨Or.inl (by decide),
   (failed_or_skipped_leaves_consumption defaultRetrainConfig envC3 true).1
     (Or.inl (by decide)),
   Or.inl (by decide),
   (failed_or_skipped_leaves_consumption defaultRetrainConfig envC3 true).2
     (Or.inl (by decide))⟩

/-! ## C5: classifier promotion decision -/

/-- C5: for every classifier retraining run that reaches the promotion
decision (gate passed, usable feedback present, training succeeded): when no
current Production version exists the candidate is promoted unconditionally
(bootstrap case); otherwise, with the production run's metrics resolved, the
candidate is promoted iff improvement = candidate_accuracy −
production_accuracy is at least the default improvement threshold 0.02. -/
theorem classifier_promotion_decision (env : Env) (force : Bool) (t : TrainOut)
    (hTrain : env.trainResult = Except.ok t)
    (hGate : (classifierCheckRetrainNeeded defaultRetrainConfig env.db).needs_retrain = true
              ∨ force = true)
    (hNE : getUnusedClassificationFeedback env.db ≠ []) :
    (getProductionModelVersion env.registry CLASSIFIER_MODEL_NAME = none →
      (classifierRun defaultRetrainConfig env force).1.promoted = true)
    ∧ (∀ v rid cm,
        getProductionModelVersion env.registry CLASSIFIER_MODEL_NAME = some v →
        getRunIdForVersion (registerModel env.registry CLASSIFIER_MODEL_NAME t.run_id)
            CLASSIFIER_MODEL_NAME v = some rid →
        env.runMetrics rid = Except.ok cm →
        ((classifierRun defaultRetrainConfig env force).1.promoted = true
          ↔ metricGetD t.metrics "test_accuracy" 0 - metricGetD cm "test_accuracy" 0
              ≥ (2:ℚ)/100)) := by
  have hgateF : ((classifierCheckRetrainNeeded defaultRetrainConfig env.db).needs_retrain = false
      ∧ force = false) ↔ False := by
    constructor
    · rintro ⟨hn, hf⟩
      rcases hGate with h | h
      · rw [h] at hn
        exact absurd hn (by decide)
      · rw [h] at hf
        exact absurd hf (by decide)
    · intro hcon
      exact hcon.elim
  have hne : (getUnusedClassificationFeedback env.db).isEmpty = false := by
    cases hfe : getUnusedClassificationFeedback env.db with
    | nil => exact absurd hfe hNE
    | cons a as => rfl
  have hci : defaultRetrainConfig.classifier_improvement = (2:ℚ)/100 := rfl
  have hgate : (!(classifierCheckRetrainNeeded defaultRetrainConfig env.db).needs_retrain
      && !force) = false := by
    rcases hGate with h | h <;> rw [h] <;> simp
  constructor
  · intro hProd
    have hProd' : getProductionModelVersion
        (registerModel env.registry CLASSIFIER_MODEL_NAME t.run_id)
          CLASSIFIER_MODEL_NAME = none := by
      rw [getProductionModelVersion_registerModel]
      exact hProd
    simp only [classifierRun, initState, bump, hgateF, hgate, if_false, hne,
      Bool.false_eq_true, hTrain, hProd', markStep_promoted]
  · intro v rid cm hProd hRid hMet
    have hProd' : getProductionModelVersion
        (registerModel env.registry CLASSIFIER_MODEL_NAME t.run_id)
          CLASSIFIER_MODEL_NAME = some v := by
      rw [getProductionModelVersion_registerModel]
      exact hProd
    simp only [classifierRun, initState, bump, hgateF, hgate, if_false, hne,
      Bool.false_eq_true, hTrain, hProd', hRid, hMet, hci, markStep_promoted]
    by_cases himp : metricGetD t.metrics "test_accuracy" 0
        - metricGetD cm "test_accuracy" 0 ≥ (2:ℚ)/100
    · rw [if_pos himp]
      simp [himp, markStep_promoted]
    · rw [if_neg himp]
      simp [himp]

/-- Concrete environment for the C5 witness: Production version 1 (accuracy
0.8), candidate run r2 with accuracy 0.9 and one usable classification
feedback row. -/
def envC5 : Env :=
  { db := { articles := [{ article_id := "a1", title := "t1",
                           abstract := none, full_text := none }],
            summaries := [],
            feedback := [{ feedback_id := 1, article_id := "a1",
                           predicted_label := some "garbage",
                           correct_label := some "important",
                           classifier_version := some "v1",
                           summary_rating := none, summary_edited_text := none,
                           summary_issues := none, summarizer_version := none,
                           used_for_training := false,
                           used_for_classifier_training := false,
                           used_for_summarizer_training := false }] },
    registry := [{ name := "pulsed-classifier", version := 1,
                   stage := Stage.production, run_id := "r1" }],
    trainResult := Except.ok { run_id := "r2", metrics := [("test_accuracy", 9/10)] },
    runMetrics := fun _ => Except.ok [("test_accuracy", 8/10)],
    transitionFails := false,
    historyFails := false,
    markFails := false }

/-- Witness for C5 on envC5: production version 1 exists and its metrics
resolve, so the promotion decision is the improvement comparison. -/
theorem classifier_promotion_decision_witness :
    envC5.trainResult = Except.ok { run_id := "r2", metrics := [("test_accuracy", 9/10)] }
    ∧ getUnusedClassificationFeedback envC5.db ≠ []
    ∧ getProductionModelVersion envC5.registry CLASSIFIER_MODEL_NAME = some 1
    ∧ getRunIdForVersion (registerModel envC5.registry CLASSIFIER_MODEL_NAME "r2")
        CLASSIFIER_MODEL_NAME 1 = some "r1"
    ∧ ((classifierRun defaultRetrainConfig envC5 true).1.promoted = true
        ↔ metricGetD [("test_accuracy", (9:ℚ)/10)] "test_accuracy" 0
            - metricGetD [("test_accuracy", (8:ℚ)/10)] "test_accuracy" 0 ≥ (2:ℚ)/100) :=
  ⟨rfl, by decide, by decide, by decide,
   (classifier_promotion_decision envC5 true
       { run_id := "r2", metrics := [("test_accuracy", 9/10)] }
       rfl (Or.inr rfl) (by decide)).2
     1 "r1" [("test_accuracy", 8/10)] (by decide) (by decide) rfl⟩

/-! ## C4: summarizer promotion decision -/

/-- General characterization of the summarizer promotion decision on a run
that reaches it with an existing Production version whose metrics resolve:
the candidate is promoted iff the loss improvement clears the threshold or the
good-rating fraction, computed by the code over all unconsumed relevant
feedback, exceeds 0.7. -/
theorem summarizer_decision_aux (env : Env) (force : Bool) (t : TrainOut)
    (hTrain : env.trainResult = Except.ok t)
    (hGate : (summarizerCheckRetrainNeeded defaultRetrainConfig env.db).needs_retrain = true
              ∨ force = true)
    (hNE : summarizerPrepIds env.db ≠ []) :
    ∀ v rid cm,
      getProductionModelVersion env.registry SUMMARIZER_MODEL_NAME = some v →
      getRunIdForVersion (registerModel env.registry SUMMARIZER_MODEL_NAME t.run_id)
          SUMMARIZER_MODEL_NAME v = some rid →
      env.runMetrics rid = Except.ok cm →
      ((summarizerRun defaultRetrainConfig env force).1.promoted = true
        ↔ (metricGetD cm "eval_loss" 1 - metricGetD t.metrics "eval_loss" 1 ≥ (5:ℚ)/100
           ∨ ((summarizerCheckRetrainNeeded defaultRetrainConfig env.db).good_count : ℚ)
               / (max (summarizerCheckRetrainNeeded defaultRetrainConfig env.db).feedback_count 1 : ℚ)
               > 7/10)) := by
  have hgateF : ((summarizerCheckRetrainNeeded defaultRetrainConfig env.db).needs_retrain = false
      ∧ force = false) ↔ False := by
    constructor
    · rintro ⟨hn, hf⟩
      rcases hGate with h | h
      · rw [h] at hn
        exact absurd hn (by decide)
      · rw [h] at hf
        exact absurd hf (by decide)
    · intro hcon
      exact hcon.elim
  have hgate : (!(summarizerCheckRetrainNeeded defaultRetrainConfig env.db).needs_retrain
      && !force) = false := by
    rcases hGate with h | h <;> rw [h] <;> simp
  have hne : (summarizerPrepIds env.db).isEmpty = false := by
    cases hfe : summarizerPrepIds env.db with
    | nil => exact absurd hfe hNE
    | cons a as => rfl
  have hsi : defaultRetrainConfig.summarizer_improvement = (5:ℚ)/100 := rfl
  intro v rid cm hProd hRid hMet
  have hProd' : getProductionModelVersion
      (registerModel env.registry SUMMARIZER_MODEL_NAME t.run_id)
        SUMMARIZER_MODEL_NAME = some v := by
    rw [getProductionModelVersion_registerModel]
    exact hProd
  simp only [summarizerRun, initState, bump, hgateF, hgate, if_false, hne,
    Bool.false_eq_true, hTrain, hProd', hRid, hMet, hsi, markStep_promoted]
  by_cases hcond : metricGetD cm "eval_loss" 1 - metricGetD t.metrics "eval_loss" 1 ≥ (5:ℚ)/100
      ∨ ((summarizerCheckRetrainNeeded defaultRetrainConfig env.db).good_count : ℚ)
          / (max (summarizerCheckRetrainNeeded defaultRetrainConfig env.db).feedback_count 1 : ℚ)
          > 7/10
  · rw [if_pos hcond]
    simp [hcond, markStep_promoted]
  · rw [if_neg hcond]
    simp [hcond]

/-- C4 (amended): for every summarizer retraining run that reaches the
promotion decision with an existing Production version whose metrics resolve,
the candidate is promoted iff improvement = production_loss − candidate_loss
is at least the default threshold 0.05, or the fraction of "good"-rated
entries among ALL unconsumed relevant summary feedback rows (the counts taken
at the threshold check) exceeds 0.7 — not the fraction among the consumed
training samples, which is what the original claim stated. -/
theorem summarizer_promotion_decision (env : Env) (force : Bool) (t : TrainOut)
    (hTrain : env.trainResult = Except.ok t)
    (hGate : (summarizerCheckRetrainNeeded defaultRetrainConfig env.db).needs_retrain = true
              ∨ force = true)
    (hNE : summarizerPrepIds env.db ≠ []) :
    ∀ v rid cm,
      getProductionModelVersion env.registry SUMMARIZER_MODEL_NAME = some v →
      getRunIdForVersion (registerModel env.registry SUMMARIZER_MODEL_NAME t.run_id)
          SUMMARIZER_MODEL_NAME v = some rid →
      env.runMetrics rid = Except.ok cm →
      ((summarizerRun defaultRetrainConfig env force).1.promoted = true
        ↔ (metricGetD cm "eval_loss" 1 - metricGetD t.metrics "eval_loss" 1 ≥ (5:ℚ)/100
           ∨ ((summarizerCheckRetrainNeeded defaultRetrainConfig env.db).good_count : ℚ)
               / (max (summarizerCheckRetrainNeeded defaultRetrainConfig env.db).feedback_count 1 : ℚ)
               > 7/10)) :=
  summarizer_decision_aux env force t hTrain hGate hNE

/-- Modelled from the claim's wording, for comparison with the code: the
fraction of "good"-rated entries among the consumed samples, i.e. among the
feedback rows whose ids _prepare_training_data actually collects. -/
def specGoodFractionAmongConsumed (db : Database) : ℚ :=
  let consumed := (getUnusedSummaryFeedback db).filter
    (fun f => (summarizerPrepIds db).contains f.feedback_id)
  ((consumed.filter (fun f => f.summary_rating == some "good")).length : ℚ)
    / (consumed.length : ℚ)

/-- Concrete environment refuting the claim's "among consumed samples"
reading: two unconsumed summary feedback rows, one rated good (consumed, a
stored summary exists) and one rated bad (fetched but not consumed); candidate
and production losses are equal, so there is no quantitative improvement. -/
def envC4ce : Env :=
  { db := { articles := [{ article_id := "a1", title := "t1",
                           abstract := none, full_text := none }],
            summaries := [{ article_id := "a1", summary_text := "s" }],
            feedback := [{ feedback_id := 1, article_id := "a1",
                           predicted_label := none, correct_label := none,
                           classifier_version := none,
                           summary_rating := some "good",
                           summary_edited_text := none,
                           summary_issues := none,
                           summarizer_version := some "v1",
                           used_for_training := false,
                           used_for_classifier_training := false,
                           used_for_summarizer_training := false },
                         { feedback_id := 2, article_id := "a1",
                           predicted_label := none, correct_label := none,
                           classifier_version := none,
                           summary_rating := some "bad",
                           summary_edited_text := none,
                           summary_issues := none,
                           summarizer_version := some "v1",
                           used_for_training := false,
                           used_for_classifier_training := false,
                           used_for_summarizer_training := false }] },
    registry := [{ name := "pulsed-summarizer", version := 1,
                   stage := Stage.production, run_id := "r1" }],
    trainResult := Except.ok { run_id := "r2", metrics := [("eval_loss", 1)] },
    runMetrics := fun _ => Except.ok [("eval_loss", 1)],
    transitionFails := false,
    historyFails := false,
    markFails := false }

/-- C4 counterexample: on envC4ce the good fraction among consumed samples is
1 (> 0.7) and there is no loss improvement, so the claim as stated predicts
promotion; the code computes the fraction over all fetched feedback (1/2) and
does not promote. -/
theorem summarizer_lenient_fraction_counterexample :
    getProductionModelVersion envC4ce.registry SUMMARIZER_MODEL_NAME = some 1
    ∧ specGoodFractionAmongConsumed envC4ce.db > 7/10
    ∧ ¬ ((1:ℚ) - 1 ≥ (5:ℚ)/100)
    ∧ metricGetD [("eval_loss", (1:ℚ))] "eval_loss" 1 = 1
    ∧ (summarizerRun defaultRetrainConfig envC4ce true).1.promoted = false := by
  refine ⟨by decide, ?_, by norm_num, rfl, ?_⟩
  · have hlen : ((getUnusedSummaryFeedback envC4ce.db).filter
        (fun f => (summarizerPrepIds envC4ce.db).contains f.feedback_id)).length = 1 := by
      decide
    have hlen2 : (((getUnusedSummaryFeedback envC4ce.db).filter
        (fun f => (summarizerPrepIds envC4ce.db).contains f.feedback_id)).filter
          (fun f => f.summary_rating == some "good")).length = 1 := by
      decide
    unfold specGoodFractionAmongConsumed
    simp only [hlen, hlen2]
    norm_num
  · have hiff := summarizer_decision_aux envC4ce true
      { run_id := "r2", metrics := [("eval_loss", 1)] } rfl (Or.inr rfl) (by decide)
      1 "r1" [("eval_loss", 1)] (by decide) (by decide) rfl
    have hm : metricGetD [("eval_loss", (1:ℚ))] "eval_loss" 1 = 1 := rfl
    have hgc : (summarizerCheckRetrainNeeded defaultRetrainConfig envC4ce.db).good_count = 1 := by
      decide
    have hfc : (summarizerCheckRetrainNeeded defaultRetrainConfig envC4ce.db).feedback_count = 2 := by
      decide
    have hrhs : ¬ (metricGetD [("eval_loss", (1:ℚ))] "eval_loss" 1
          - metricGetD [("eval_loss", (1:ℚ))] "eval_loss" 1 ≥ (5:ℚ)/100
        ∨ ((summarizerCheckRetrainNeeded defaultRetrainConfig envC4ce.db).good_count : ℚ)
            / (max (summarizerCheckRetrainNeeded defaultRetrainConfig envC4ce.db).feedback_count 1 : ℚ)
            > 7/10) := by
      rw [hm, hgc, hfc]
      norm_num
    cases hp : (summarizerRun defaultRetrainConfig envC4ce true).1.promoted
    · rfl
    · exact absurd (hiff.mp hp) hrhs

/-- Concrete environment for the C4 witness, the specification's lenient-path
example: four unconsumed summary feedback rows, three rated good and one bad
(good fraction 0.75), candidate loss 1.01 against production loss 1
(improvement −0.01). -/
def envC4w : Env :=
  { db := { articles := [{ article_id := "a1", title := "t1",
                           abstract := none, full_text := none }],
            summaries := [{ article_id := "a1", summary_text := "s" }],
            feedback := [{ feedback_id := 1, article_id := "a1",
                           predicted_label := none, correct_label := none,
                           classifier_version := none,
                           summary_rating := some "good",
                           summary_edited_text := none,
                           summary_issues := none,
                           summarizer_version := some "v1",
                           used_for_training := false,
                           used_for_classifier_training := false,
                           used_for_summarizer_training := false },
                         { feedback_id := 2, article_id := "a1",
                           predicted_label := none, correct_label := none,
                           classifier_version := none,
                           summary_rating := some "good",
                           summary_edited_text := none,
                           summary_issues := none,
                           summarizer_version := some "v1",
                           used_for_training := false,
                           used_for_classifier_training := false,
                           used_for_summarizer_training := false },
                         { feedback_id := 3, article_id := "a1",
                           predicted_label := none, correct_label := none,
                           classifier_version := none,
                           summary_rating := some "good",
                           summary_edited_text := none,
                           summary_issues := none,
                           summarizer_version := some "v1",
                           used_for_training := false,
                           used_for_classifier_training := false,
                           used_for_summarizer_training := false },
                         { feedback_id := 4, article_id := "a1",
                           predicted_label := none, correct_label := none,
                           classifier_version := none,
                           summary_rating := some "bad",
                           summary_edited_text := none,
                           summary_issues := none,
                           summarizer_version := some "v1",
                           used_for_training := false,
                           used_for_classifier_training := false,
                           used_for_summarizer_training := false }] },
    registry := [{ name := "pulsed-summarizer", version := 1,
                   stage := Stage.production, run_id := "r1" }],
    trainResult := Except.ok { run_id := "r2", metrics := [("eval_loss", 101/100)] },
    runMetrics := fun _ => Except.ok [("eval_loss", 1)],
    transitionFails := false,
    historyFails := false,
    markFails := false }

/-- Witness for C4's amended theorem on the lenient-path environment. -/
theorem summarizer_promotion_decision_witness :
    envC4w.trainResult = Except.ok { run_id := "r2", metrics := [("eval_loss", (101:ℚ)/100)] }
    ∧ summarizerPrepIds envC4w.db ≠ []
    ∧ getProductionModelVersion envC4w.registry SUMMARIZER_MODEL_NAME = some 1
    ∧ ((summarizerRun defaultRetrainConfig envC4w true).1.promoted = true
        ↔ (metricGetD [("eval_loss", (1:ℚ))] "eval_loss" 1
            - metricGetD [("eval_loss", (101:ℚ)/100)] "eval_loss" 1 ≥ (5:ℚ)/100
           ∨ ((summarizerCheckRetrainNeeded defaultRetrainConfig envC4w.db).good_count : ℚ)
               / (max (summarizerCheckRetrainNeeded defaultRetrainConfig envC4w.db).feedback_count 1 : ℚ)
               > 7/10)) :=
  ⟨rfl, by decide, by decide,
   summarizer_promotion_decision envC4w true
     { run_id := "r2", metrics := [("eval_loss", 101/100)] } rfl (Or.inr rfl) (by decide)
     1 "r1" [("eval_loss", 1)] (by decide) (by decide) rfl⟩

/-! ## C1: registry transition failure during promotion -/

/-- Concrete environment exhibiting the C1 divergence: one unconsumed
classification feedback row, Production version 1 with accuracy 0, a candidate
run r2 with accuracy 1 (well above the threshold), and a registry whose
transition call raises. -/
def envC1 : Env :=
  { db := { articles := [{ article_id := "a1", title := "t1",
                           abstract := none, full_text := none }],
            summaries := [],
            feedback := [{ feedback_id := 1, article_id := "a1",
                           predicted_label := some "garbage",
                           correct_label := some "important",
                           classifier_version := some "v1",
                           summary_rating := none, summary_edited_text := none,
                           summary_issues := none, summarizer_version := none,
                           used_for_training := false,
                           used_for_classifier_training := false,
                           used_for_summarizer_training := false }] },
    registry := [{ name := "pulsed-classifier", version := 1,
                   stage := Stage.production, run_id := "r1" }],
    trainResult := Except.ok { run_id := "r2", metrics := [("test_accuracy", 1)] },
    runMetrics := fun _ => Except.ok [("test_accuracy", 0)],
    transitionFails := true,
    historyFails := false,
    markFails := false }

/-- C1: when the registry transition made during promotion fails, the
classifier pipeline does NOT end Failed: the promoter catches the exception
into a success = False dictionary that run() never inspects, so the run ends
with promoted = True and no error, version 1 is still the Production version
(the candidate was not promoted), and the feedback row IS marked consumed for
the classifier — contradicting the claimed Failed state, surfaced error and
untouched consumption flags. -/
theorem classifier_run_consumes_despite_failed_transition :
    envC1.transitionFails = true
    ∧ (classifierRun defaultRetrainConfig envC1 true).1.promoted = true
    ∧ (classifierRun defaultRetrainConfig envC1 true).1.error = none
    ∧ getProductionModelVersion (classifierRun defaultRetrainConfig envC1 true).2.registry
        CLASSIFIER_MODEL_NAME = some 1
    ∧ envC1.db.feedback.map (fun f => f.used_for_classifier_training) = [false]
    ∧ (classifierRun defaultRetrainConfig envC1 true).2.db.feedback.map
        (fun f => f.used_for_classifier_training) = [true] := by
  have hgate : (!(classifierCheckRetrainNeeded defaultRetrainConfig envC1.db).needs_retrain
      && !true) = false := by decide
  have hne : (getUnusedClassificationFeedback envC1.db).isEmpty = false := by decide
  have hTrain : envC1.trainResult
      = Except.ok { run_id := "r2", metrics := [("test_accuracy", 1)] } := rfl
  have hProd' : getProductionModelVersion
      (registerModel envC1.registry CLASSIFIER_MODEL_NAME "r2") CLASSIFIER_MODEL_NAME
        = some 1 := by decide
  have hRid : getRunIdForVersion (registerModel envC1.registry CLASSIFIER_MODEL_NAME "r2")
      CLASSIFIER_MODEL_NAME 1 = some "r1" := by decide
  have hMet : envC1.runMetrics "r1" = Except.ok [("test_accuracy", 0)] := rfl
  have hm1 : metricGetD [("test_accuracy", (1:ℚ))] "test_accuracy" 0 = 1 := rfl
  have hm2 : metricGetD [("test_accuracy", (0:ℚ))] "test_accuracy" 0 = 0 := rfl
  have hci : defaultRetrainConfig.classifier_improvement = (2:ℚ)/100 := rfl
  have himp : (1:ℚ) - 0 ≥ (2:ℚ)/100 := by norm_num
  refine ⟨rfl, ?_, ?_, ?_, rfl, ?_⟩ <;>
    (simp only [classifierRun, initState, bump, hgate, Bool.false_eq_true, if_false, hne,
      hTrain, hProd', hRid, hMet, hm1, hm2, hci]
     rw [if_pos himp]
     decide)

/-! ## C2: summarizer promotion marks the classifier flag -/

/-- Concrete environment exhibiting the C2 divergence: one unconsumed
good-rated summary feedback row with a stored summary, no Production
summarizer (bootstrap promotion), and a healthy registry and ledger. -/
def envC2 : Env :=
  { db := { articles := [{ article_id := "a1", title := "t1",
                           abstract := none, full_text := none }],
            summaries := [{ article_id := "a1", summary_text := "s" }],
            feedback := [{ feedback_id := 1, article_id := "a1",
                           predicted_label := none, correct_label := none,
                           classifier_version := none,
                           summary_rating := some "good",
                           summary_edited_text := none,
                           summary_issues := none,
                           summarizer_version := some "v1",
                           used_for_training := false,
                           used_for_classifier_training := false,
                           used_for_summarizer_training := false }] },
    registry := [],
    trainResult := Except.ok { run_id := "r2", metrics := [] },
    runMetrics := fun _ => Except.error "unused",
    transitionFails := false,
    historyFails := false,
    markFails := false }

/-- C2: when the summarizer pipeline promotes a model and marks its feedback
consumed, it calls mark_feedback_used without a model_type, so Python's
default "both" applies and the classifier consumption flag
used_for_classifier_training flips from false to true on every marked entry —
contradicting the claim that only the summarizer flag is set. -/
theorem summarizer_promotion_sets_classifier_flag :
    (summarizerRun defaultRetrainConfig envC2 true).1.promoted = true
    ∧ envC2.db.feedback.map (fun f => f.used_for_classifier_training) = [false]
    ∧ (summarizerRun defaultRetrainConfig envC2 true).2.db.feedback.map
        (fun f => f.used_for_classifier_training) = [true]
    ∧ (summarizerRun defaultRetrainConfig envC2 true).2.db.feedback.map
        (fun f => f.used_for_summarizer_training) = [true] := by
  refine ⟨?_, rfl, ?_, ?_⟩ <;> decide

end Pulsed
